import Mathlib

/-!
Verification of the spatio-temporal GMRF count-data likelihood
(`space_time_GSTMEM.cpp`).

The C++ objective function is embedded shallowly:

* machine reals become `ℝ`;
* the missing-value sentinel `NA` (tested by `isNA` / `R_IsNA`) is embedded
  as `Option ℝ` with `none` standing for `NA`, since an IEEE `NaN` payload
  has no counterpart in `ℝ`;
* `dpois(x, lambda, true)` is the Poisson log-mass
  `x·log lambda - lambda - log Γ(x+1)`;
* the sequential accumulation loops (`for t`, `for i` with `+=`) become
  left folds over `List.finRange`, preserving the ascending evaluation
  order of the source.

The TMB density objects `GMRF` and `SCALE` are library primitives whose
code is not part of this repository; they are modelled from the spec
(§4.2) as noted on their definitions.
-/

namespace GSTMEM

/-- Modelled from the spec: TMB's `GMRF(Q)` density object (library code, not
in the repository). Per §4.2 it returns the negative log-density of a
mean-zero Gaussian vector `x` under precision `Q`:
`½·xᵗQx - ½·log(det Q) + (m/2)·log(2π)`. -/
noncomputable def gmrf_nll (m : ℕ) (Q : Matrix (Fin m) (Fin m) ℝ)
    (x : Fin m → ℝ) : ℝ :=
  (1 / 2) * Matrix.dotProduct x (Q.mulVec x) - (1 / 2) * Real.log Q.det
    + ((m : ℝ) / 2) * Real.log (2 * Real.pi)

/-- Modelled from the spec: TMB's `SCALE(GMRF(Q), scale)` (library code, not
in the repository). Per §4.2 it evaluates the `GMRF(Q)` negative
log-density at `x/scale` and adds the change-of-variables Jacobian
correction `m·log(scale)`. -/
noncomputable def scaled_gmrf_nll (m : ℕ) (Q : Matrix (Fin m) (Fin m) ℝ)
    (scale : ℝ) (x : Fin m → ℝ) : ℝ :=
  gmrf_nll m Q (fun i => x i / scale) + (m : ℝ) * Real.log scale

/-- TMB's `dpois(x, lambda, true)`: the Poisson log-mass
`x·log lambda - lambda - log Γ(x+1)` (counts are real-valued in the
source, so the factorial is the Gamma function). -/
noncomputable def dpois_log (x lambda : ℝ) : ℝ :=
  x * Real.log lambda - lambda - Real.log (Real.Gamma (x + 1))

/-- All inputs of one evaluation of `objective_function::operator()`:
data (`DATA_*`), parameters (`PARAMETER*`) and random effects.
A count `c_i i = none` embeds the `NA` sentinel. -/
structure ModelInput (n_s n_t n_i : ℕ) where
  a_s : Fin n_s → ℝ
  c_i : Fin n_i → Option ℝ
  s_i : Fin n_i → Fin n_s
  t_i : Fin n_i → Fin n_t
  M0 : Matrix (Fin n_s) (Fin n_s) ℝ
  M1 : Matrix (Fin n_s) (Fin n_s) ℝ
  M2 : Matrix (Fin n_s) (Fin n_s) ℝ
  beta0 : ℝ
  ln_tau_O : ℝ
  ln_tau_E : ℝ
  ln_kappa : ℝ
  omega_s : Fin n_s → ℝ
  epsilon_st : Fin n_s → Fin n_t → ℝ

variable {n_s n_t n_i : ℕ}

/-- Source: `Type Range = sqrt(8) / exp( ln_kappa );` -/
noncomputable def Range (d : ModelInput n_s n_t n_i) : ℝ :=
  Real.sqrt 8 / Real.exp d.ln_kappa

/-- Source: `Type SigmaO = 1 / sqrt(4 * M_PI * exp(2*ln_tau_O) * exp(2*ln_kappa));` -/
noncomputable def SigmaO (d : ModelInput n_s n_t n_i) : ℝ :=
  1 / Real.sqrt (4 * Real.pi * Real.exp (2 * d.ln_tau_O) * Real.exp (2 * d.ln_kappa))

/-- Source: `Type SigmaE = 1 / sqrt(4 * M_PI * exp(2*ln_tau_E) * exp(2*ln_kappa));` -/
noncomputable def SigmaE (d : ModelInput n_s n_t n_i) : ℝ :=
  1 / Real.sqrt (4 * Real.pi * Real.exp (2 * d.ln_tau_E) * Real.exp (2 * d.ln_kappa))

/-- Source: `Eigen::SparseMatrix<Type> Q = exp(4*ln_kappa)*M0 + Type(2.0)*exp(2*ln_kappa)*M1 + M2;` -/
noncomputable def Q (d : ModelInput n_s n_t n_i) : Matrix (Fin n_s) (Fin n_s) ℝ :=
  Real.exp (4 * d.ln_kappa) • d.M0 + (2 * Real.exp (2 * d.ln_kappa)) • d.M1 + d.M2

/-- Source: `log_d_st(s,t) = beta0 + omega_s(s) + epsilon_st(s,t);` -/
noncomputable def log_d_st (d : ModelInput n_s n_t n_i) : Fin n_s → Fin n_t → ℝ :=
  fun s t => d.beta0 + d.omega_s s + d.epsilon_st s t

/-- Source: `jnll_comp(1) += SCALE( GMRF(Q), 1/exp(ln_tau_O) )( omega_s );`
starting from the `setZero` initial value. -/
noncomputable def spatial_term (d : ModelInput n_s n_t n_i) : ℝ :=
  0 + scaled_gmrf_nll n_s (Q d) (1 / Real.exp d.ln_tau_O) d.omega_s

/-- The `for( int t=0; t<n_t; t++)` loop:
`jnll_comp(2) += SCALE( GMRF(Q), 1/exp(ln_tau_E) )( epsilon_st.col(t) );`,
as a left fold in ascending `t` from the `setZero` initial value. -/
noncomputable def spacetime_term (d : ModelInput n_s n_t n_i) : ℝ :=
  (List.finRange n_t).foldl
    (fun acc t =>
      acc + scaled_gmrf_nll n_s (Q d) (1 / Real.exp d.ln_tau_E) (fun s => d.epsilon_st s t))
    0

/-- The `for( int i=0; i<n_i; i++)` loop:
`if( !isNA(c_i(i)) ) jnll_comp(0) -= dpois( c_i(i), exp(log_d_st(s_i(i),t_i(i))), true );`,
as a left fold in ascending `i` from the `setZero` initial value; an `NA`
count (`none`) leaves the accumulator unchanged. -/
noncomputable def data_term (d : ModelInput n_s n_t n_i) : ℝ :=
  (List.finRange n_i).foldl
    (fun acc i =>
      match d.c_i i with
      | none => acc
      | some c => acc - dpois_log c (Real.exp (log_d_st d (d.s_i i) (d.t_i i))))
    0

/-- The 3-component vector `jnll_comp`: data term, spatial random-effect
term, space-time random-effect term. -/
noncomputable def jnll_comp (d : ModelInput n_s n_t n_i) : Fin 3 → ℝ :=
  ![data_term d, spatial_term d, spacetime_term d]

/-- Source: `Type jnll = jnll_comp.sum();` — the scalar objective returned
to the caller. -/
noncomputable def jnll (d : ModelInput n_s n_t n_i) : ℝ :=
  ∑ k : Fin 3, jnll_comp d k

/-- Replace only the area-weight vector `a_s`, all other inputs unchanged. -/
def setArea (d : ModelInput n_s n_t n_i) (a : Fin n_s → ℝ) : ModelInput n_s n_t n_i :=
  ⟨a, d.c_i, d.s_i, d.t_i, d.M0, d.M1, d.M2, d.beta0, d.ln_tau_O, d.ln_tau_E,
    d.ln_kappa, d.omega_s, d.epsilon_st⟩

/-- Per-observation contribution of the data loop body: `NA` counts leave the
accumulator unchanged (contribute `0`), non-`NA` counts contribute the
negated Poisson log-mass. -/
noncomputable def obs_nll (c : Option ℝ) (lam : ℝ) : ℝ :=
  match c with
  | none => 0
  | some cv => -(dpois_log cv lam)

lemma foldl_add_eq_sum {α : Type} (f : α → ℝ) (l : List α) (init : ℝ) :
    l.foldl (fun acc t => acc + f t) init = init + (l.map f).sum := by
  induction l generalizing init with
  | nil => simp
  | cons a l ih => simp [ih, add_assoc]

lemma spacetime_term_eq_sum (d : ModelInput n_s n_t n_i) :
    spacetime_term d =
      ∑ t : Fin n_t,
        scaled_gmrf_nll n_s (Q d) (1 / Real.exp d.ln_tau_E) (fun s => d.epsilon_st s t) := by
  rw [spacetime_term, foldl_add_eq_sum, zero_add, Fin.sum_univ_def]

lemma data_term_eq_sum (d : ModelInput n_s n_t n_i) :
    data_term d =
      ∑ i : Fin n_i, obs_nll (d.c_i i) (Real.exp (log_d_st d (d.s_i i) (d.t_i i))) := by
  rw [data_term]
  have hstep :
      (List.finRange n_i).foldl
          (fun acc i =>
            match d.c_i i with
            | none => acc
            | some c => acc - dpois_log c (Real.exp (log_d_st d (d.s_i i) (d.t_i i))))
          0 =
        (List.finRange n_i).foldl
          (fun acc i => acc + obs_nll (d.c_i i) (Real.exp (log_d_st d (d.s_i i) (d.t_i i))))
          0 := by
    apply List.foldl_ext
    intro acc i _
    cases h : d.c_i i with
    | none => simp [obs_nll]
    | some cv => simp [obs_nll, sub_eq_add_neg]
  rw [hstep, foldl_add_eq_sum, zero_add, Fin.sum_univ_def]

lemma obs_nll_eq_ite (c : Option ℝ) (lam : ℝ) :
    obs_nll c lam = if c.isSome then -(dpois_log (c.getD 0) lam) else 0 := by
  cases c <;> simp [obs_nll]

end GSTMEM

namespace GSTMEM

variable {n_s n_t n_i : ℕ}

/-- C1: the scaled GMRF density evaluator returns
`½·(x/scale)ᵗQ(x/scale) - ½·log(det Q) + (m/2)·log(2π) + m·log(scale)`,
the negative log-density of `x` under the rescaled mean-zero Gaussian field,
for every symmetric positive-definite precision `Q`, positive `scale`, and
real vector `x`. -/
theorem C1_density_evaluator (m : ℕ) (Qm : Matrix (Fin m) (Fin m) ℝ) (scale : ℝ)
    (x : Fin m → ℝ) (hQ : Qm.PosDef) (hs : 0 < scale) :
    scaled_gmrf_nll m Qm scale x =
      (1 / 2) * Matrix.dotProduct (fun i => x i / scale) (Qm.mulVec (fun i => x i / scale))
        - (1 / 2) * Real.log Qm.det + ((m : ℝ) / 2) * Real.log (2 * Real.pi)
        + (m : ℝ) * Real.log scale := rfl

theorem C1_density_evaluator_witness :
    (1 : Matrix (Fin 1) (Fin 1) ℝ).PosDef ∧ (0 : ℝ) < 1 ∧
    scaled_gmrf_nll 1 (1 : Matrix (Fin 1) (Fin 1) ℝ) 1 (fun _ => 0) =
      (1 / 2) * Matrix.dotProduct (fun i : Fin 1 => (0 : ℝ) / 1)
          ((1 : Matrix (Fin 1) (Fin 1) ℝ).mulVec (fun i : Fin 1 => (0 : ℝ) / 1))
        - (1 / 2) * Real.log (1 : Matrix (Fin 1) (Fin 1) ℝ).det
        + (((1 : ℕ) : ℝ) / 2) * Real.log (2 * Real.pi)
        + ((1 : ℕ) : ℝ) * Real.log 1 :=
  ⟨Matrix.PosDef.one, one_pos,
    C1_density_evaluator 1 1 1 (fun _ => 0) Matrix.PosDef.one one_pos⟩

/-- C2: the scalar objective returned by one evaluation equals the sum of the
three entries of the component vector `jnll_comp`, and nothing else
contributes. -/
theorem C2_objective_sums_components (d : ModelInput n_s n_t n_i) :
    jnll d = jnll_comp d 0 + jnll_comp d 1 + jnll_comp d 2 := by
  rw [jnll, Fin.sum_univ_three]

/-- C5: the spatial component is exactly one density evaluation of `omega_s`
under `Q` with `scale = 1/exp(ln_tau_O)`, and the space-time component is
the sum over `t` of density evaluations of the `t`-th column of
`epsilon_st` under the same `Q` with `scale = 1/exp(ln_tau_E)`. -/
theorem C5_random_effect_terms (d : ModelInput n_s n_t n_i) :
    jnll_comp d 1 = scaled_gmrf_nll n_s (Q d) (1 / Real.exp d.ln_tau_O) d.omega_s
  ∧ jnll_comp d 2 =
      ∑ t : Fin n_t,
        scaled_gmrf_nll n_s (Q d) (1 / Real.exp d.ln_tau_E) (fun s => d.epsilon_st s t) := by
  constructor
  · show spatial_term d = _
    rw [spatial_term, zero_add]
  · show spacetime_term d = _
    exact spacetime_term_eq_sum d

/-- C6: the log-intensity surface satisfies
`log_d_st[s,t] = beta0 + omega_s[s] + epsilon_st[s,t]` for every `s`, `t`;
a pure elementwise combination defined for all real inputs. -/
theorem C6_log_intensity_surface (d : ModelInput n_s n_t n_i)
    (s : Fin n_s) (t : Fin n_t) :
    log_d_st d s t = d.beta0 + d.omega_s s + d.epsilon_st s t := rfl

/-- C9: no output of one evaluation depends on the area-weight vector `a_s`:
replacing `a_s` leaves the objective, the component vector, the
log-intensity surface and all derived scalars unchanged. -/
theorem C9_area_weights_unused (d : ModelInput n_s n_t n_i) (a : Fin n_s → ℝ) :
    jnll (setArea d a) = jnll d
  ∧ jnll_comp (setArea d a) = jnll_comp d
  ∧ log_d_st (setArea d a) = log_d_st d
  ∧ Range (setArea d a) = Range d
  ∧ SigmaO (setArea d a) = SigmaO d
  ∧ SigmaE (setArea d a) = SigmaE d :=
  ⟨rfl, rfl, rfl, rfl, rfl, rfl⟩

/-- C3: the precision matrix used by every density evaluation in one call is
the single matrix `Q = exp(4·ln_kappa)·M0 + 2·exp(2·ln_kappa)·M1 + M2`,
built once and shared by the spatial evaluation and all `n_t` space-time
evaluations. -/
theorem C3_shared_precision_matrix (d : ModelInput n_s n_t n_i) :
    Q d = Real.exp (4 * d.ln_kappa) • d.M0 + (2 * Real.exp (2 * d.ln_kappa)) • d.M1 + d.M2
  ∧ jnll_comp d 1 = 0 + scaled_gmrf_nll n_s (Q d) (1 / Real.exp d.ln_tau_O) d.omega_s
  ∧ jnll_comp d 2 =
      ∑ t : Fin n_t,
        scaled_gmrf_nll n_s (Q d) (1 / Real.exp d.ln_tau_E) (fun s => d.epsilon_st s t) :=
  ⟨rfl, rfl, spacetime_term_eq_sum d⟩

/-- C4: the data component sums `-logPoisson(c_i[i]; exp(log_d_st[s_i[i],t_i[i]]))`
over exactly the indices whose count is not the missing sentinel; a missing
count contributes exactly zero, and an ordinary zero count is not skipped —
it contributes the full Poisson term. -/
theorem C4_data_term_missing_handling (d : ModelInput n_s n_t n_i) :
    data_term d =
      ∑ i ∈ Finset.univ.filter (fun i => (d.c_i i).isSome),
        -(dpois_log ((d.c_i i).getD 0) (Real.exp (log_d_st d (d.s_i i) (d.t_i i))))
  ∧ data_term d =
      ∑ i : Fin n_i, obs_nll (d.c_i i) (Real.exp (log_d_st d (d.s_i i) (d.t_i i)))
  ∧ (∀ lam : ℝ, obs_nll none lam = 0)
  ∧ (∀ lam : ℝ, obs_nll (some 0) lam = -(dpois_log 0 lam)) := by
  refine ⟨?_, data_term_eq_sum d, fun lam => rfl, fun lam => rfl⟩
  rw [data_term_eq_sum d, Finset.sum_filter]
  exact Finset.sum_congr rfl fun i _ => obs_nll_eq_ite _ _

/-- C7: the derived quantities satisfy their defining formulas, and the
consistency identities `Range·exp(ln_kappa) = sqrt 8` and
`SigmaO²·4π·exp(2·ln_tau_O)·exp(2·ln_kappa) = 1` hold for all parameter
values. -/
theorem C7_derived_quantities (d : ModelInput n_s n_t n_i) :
    Range d = Real.sqrt 8 / Real.exp d.ln_kappa
  ∧ SigmaO d = 1 / Real.sqrt (4 * Real.pi * Real.exp (2 * d.ln_tau_O) * Real.exp (2 * d.ln_kappa))
  ∧ SigmaE d = 1 / Real.sqrt (4 * Real.pi * Real.exp (2 * d.ln_tau_E) * Real.exp (2 * d.ln_kappa))
  ∧ Range d * Real.exp d.ln_kappa = Real.sqrt 8
  ∧ SigmaO d ^ 2 * (4 * Real.pi) * Real.exp (2 * d.ln_tau_O) * Real.exp (2 * d.ln_kappa) = 1 := by
  refine ⟨rfl, rfl, rfl, ?_, ?_⟩
  · rw [Range]
    field_simp
  · have hA : (0 : ℝ) < 4 * Real.pi * Real.exp (2 * d.ln_tau_O) * Real.exp (2 * d.ln_kappa) := by
      positivity
    have h2 : SigmaO d ^ 2 =
        1 / (4 * Real.pi * Real.exp (2 * d.ln_tau_O) * Real.exp (2 * d.ln_kappa)) := by
      rw [SigmaO, div_pow, one_pow, Real.sq_sqrt hA.le]
    rw [h2]
    field_simp

lemma scaled_gmrf_nll_ge {m : ℕ} {Qm : Matrix (Fin m) (Fin m) ℝ} (hQ : Qm.PosSemidef)
    (scale : ℝ) (x : Fin m → ℝ) :
    -(1 / 2) * Real.log Qm.det + ((m : ℝ) / 2) * Real.log (2 * Real.pi)
        + (m : ℝ) * Real.log scale
      ≤ scaled_gmrf_nll m Qm scale x := by
  have h := hQ.2 (fun i => x i / scale)
  have hs : star (fun i => x i / scale) = fun i => x i / scale := by
    funext i
    exact star_trivial _
  rw [hs] at h
  simp only [scaled_gmrf_nll, gmrf_nll]
  linarith [h]

/-- C8 counterexample input: one spatial node, one time step, no
observations; `M0 = M1 = 0`, `M2 = diagonal 100`, all parameters and fields
zero. The resulting `Q = [[100]]` is symmetric positive definite and both
scales equal `1`, yet the spatial penalty is negative. -/
def d8 : ModelInput 1 1 0 :=
  ⟨fun _ => 0, fun i => Fin.elim0 i, fun i => Fin.elim0 i, fun i => Fin.elim0 i,
    0, 0, Matrix.diagonal (fun _ => 100), 0, 0, 0, 0, fun _ => 0, fun _ _ => 0⟩

lemma Q_d8_eq : Q d8 = Matrix.diagonal (fun _ => (100 : ℝ)) := by
  simp [Q, d8]

lemma Q_d8_posDef : (Q d8).PosDef := by
  rw [Q_d8_eq]
  exact Matrix.PosDef.diagonal fun _ => by norm_num

lemma Q_d8_det : (Q d8).det = 100 := by
  rw [Q_d8_eq]
  simp [Matrix.det_diagonal]

lemma Q_d8_entry : Q d8 0 0 = 100 := by
  rw [Q_d8_eq]
  simp

lemma d8_ln_tau_O : d8.ln_tau_O = 0 := rfl

lemma d8_omega_s : d8.omega_s = fun _ => 0 := rfl

/-- C8 counterexample: at the concrete input `d8` the precision matrix is
symmetric positive definite and both scales are positive, yet the spatial
random-effect component of the reported vector is negative — refuting the
claim that both penalties are always non-negative. -/
theorem C8_counterexample :
    (Q d8).PosDef ∧ 0 < 1 / Real.exp d8.ln_tau_O ∧ 0 < 1 / Real.exp d8.ln_tau_E
      ∧ jnll_comp d8 1 < 0 := by
  refine ⟨Q_d8_posDef, by positivity, by positivity, ?_⟩
  have h1 : jnll_comp d8 1 =
      (1 / 2) * Real.log (2 * Real.pi) - (1 / 2) * Real.log 100 := by
    show spatial_term d8 = _
    simp [spatial_term, scaled_gmrf_nll, gmrf_nll, Q_d8_det, Q_d8_entry,
      d8_ln_tau_O, d8_omega_s, Matrix.dotProduct]
    ring
  have hlt : Real.log (2 * Real.pi) < Real.log 100 :=
    Real.log_lt_log (by positivity) (by nlinarith [Real.pi_lt_d2])
  rw [h1]
  linarith

/-- C8 (amended): for positive-semidefinite `Q` the two random-effect
components are real scalars bounded below by the density value at the zero
field (the quadratic form contributes non-negatively); they are not in
general non-negative. -/
theorem C8_penalties_amended (d : ModelInput n_s n_t n_i) (hQ : (Q d).PosSemidef) :
    jnll_comp d 1 ≥
      -(1 / 2) * Real.log (Q d).det + ((n_s : ℝ) / 2) * Real.log (2 * Real.pi)
        + (n_s : ℝ) * Real.log (1 / Real.exp d.ln_tau_O)
  ∧ jnll_comp d 2 ≥
      (n_t : ℝ) * (-(1 / 2) * Real.log (Q d).det + ((n_s : ℝ) / 2) * Real.log (2 * Real.pi)
        + (n_s : ℝ) * Real.log (1 / Real.exp d.ln_tau_E)) := by
  constructor
  · have h1 : jnll_comp d 1 =
        scaled_gmrf_nll n_s (Q d) (1 / Real.exp d.ln_tau_O) d.omega_s := by
      show spatial_term d = _
      simp only [spatial_term, zero_add]
    rw [h1]
    exact scaled_gmrf_nll_ge hQ _ _
  · have h2 : jnll_comp d 2 =
        ∑ t : Fin n_t,
          scaled_gmrf_nll n_s (Q d) (1 / Real.exp d.ln_tau_E) (fun s => d.epsilon_st s t) :=
      spacetime_term_eq_sum d
    have hconst :
        (n_t : ℝ) * (-(1 / 2) * Real.log (Q d).det + ((n_s : ℝ) / 2) * Real.log (2 * Real.pi)
            + (n_s : ℝ) * Real.log (1 / Real.exp d.ln_tau_E)) =
          ∑ _t : Fin n_t,
            (-(1 / 2) * Real.log (Q d).det + ((n_s : ℝ) / 2) * Real.log (2 * Real.pi)
              + (n_s : ℝ) * Real.log (1 / Real.exp d.ln_tau_E)) := by
      rw [Finset.sum_const, Finset.card_univ, Fintype.card_fin, nsmul_eq_mul]
    rw [ge_iff_le, h2, hconst]
    exact Finset.sum_le_sum fun t _ => scaled_gmrf_nll_ge hQ _ _

theorem C8_penalties_amended_witness :
    (Q d8).PosSemidef ∧
    (jnll_comp d8 1 ≥
        -(1 / 2) * Real.log (Q d8).det + (((1 : ℕ) : ℝ) / 2) * Real.log (2 * Real.pi)
          + ((1 : ℕ) : ℝ) * Real.log (1 / Real.exp d8.ln_tau_O)
      ∧ jnll_comp d8 2 ≥
        ((1 : ℕ) : ℝ) * (-(1 / 2) * Real.log (Q d8).det
          + (((1 : ℕ) : ℝ) / 2) * Real.log (2 * Real.pi)
          + ((1 : ℕ) : ℝ) * Real.log (1 / Real.exp d8.ln_tau_E))) :=
  ⟨Q_d8_posDef.posSemidef, C8_penalties_amended d8 Q_d8_posDef.posSemidef⟩

/-- C10: with no observations (`n_i = 0`) the evaluation still succeeds: the
data component is exactly `0` and the returned scalar equals the spatial
penalty plus the space-time penalty. -/
theorem C10_empty_observations (d : ModelInput n_s n_t 0) :
    jnll_comp d 0 = 0 ∧ jnll d = jnll_comp d 1 + jnll_comp d 2 := by
  have h0 : jnll_comp d 0 = 0 := by
    show data_term d = 0
    rw [data_term]
    simp
  exact ⟨h0, by rw [jnll, Fin.sum_univ_three, h0, zero_add]⟩

end GSTMEM
